import Mathlib

/-!
A verification development for the miniDAQ operator console
(file: Test Script Code/Testing GUI.py).

We shallowly embed the serial command/response client (class SerialComm),
the response logger, the guided-calibration workflow and the full automated
test workflow, and prove properties about them.  Library functions that the
Python code calls (json.loads, re.search, str.strip, bytes.decode, float)
are modelled by executable Lean definitions below, each documented at its
definition site.
-/

set_option maxRecDepth 4000

namespace MiniDAQ

/-! ## Python string helpers -/

/-- Whitespace characters removed by Python str.strip with no argument
(restricted to the ASCII whitespace set; the repository only ever deals in
ASCII protocol text). -/
def isPyWs (c : Char) : Bool :=
  c = ' ' || c = '\t' || c = '\n' || c = '\r' || c = '\x0b' || c = '\x0c'

/-- Model of Python str.strip(): drop whitespace from both ends. -/
def pyStrip (s : String) : String :=
  String.mk (((s.data.dropWhile isPyWs).reverse.dropWhile isPyWs).reverse)

/-- The Unicode replacement character U+FFFD. -/
def replChar : Char := Char.ofNat 0xFFFD

/-- Model of bytes.decode with errors replace, on a list of byte
values: decode UTF-8, emitting U+FFFD for each invalid byte.  Never fails,
matching the Python call that cannot raise. -/
def utf8DecodeReplace : Nat → List Nat → List Char
  | 0, _ => []
  | _, [] => []
  | fuel + 1, b :: bs =>
    if b < 0x80 then
      Char.ofNat b :: utf8DecodeReplace fuel bs
    else if b < 0xC2 then
      -- stray continuation byte or overlong-lead: replaced
      replChar :: utf8DecodeReplace fuel bs
    else if b < 0xE0 then
      match bs with
      | b1 :: rest =>
        if 0x80 ≤ b1 && b1 < 0xC0 then
          Char.ofNat (((b - 0xC0) * 64 + (b1 - 0x80)) % 0x110000) ::
            utf8DecodeReplace fuel rest
        else replChar :: utf8DecodeReplace fuel bs
      | [] => [replChar]
    else if b < 0xF0 then
      match bs with
      | b1 :: b2 :: rest =>
        if 0x80 ≤ b1 && b1 < 0xC0 && 0x80 ≤ b2 && b2 < 0xC0 &&
            !(b = 0xE0 && b1 < 0xA0) && !(b = 0xED && 0xA0 ≤ b1) then
          Char.ofNat (((b - 0xE0) * 4096 + (b1 - 0x80) * 64 + (b2 - 0x80))
              % 0x110000) :: utf8DecodeReplace fuel rest
        else replChar :: utf8DecodeReplace fuel bs
      | _ => replChar :: utf8DecodeReplace fuel bs
    else if b < 0xF5 then
      match bs with
      | b1 :: b2 :: b3 :: rest =>
        if 0x80 ≤ b1 && b1 < 0xC0 && 0x80 ≤ b2 && b2 < 0xC0 &&
            0x80 ≤ b3 && b3 < 0xC0 &&
            !(b = 0xF0 && b1 < 0x90) && !(b = 0xF4 && 0x90 ≤ b1) then
          Char.ofNat (((b - 0xF0) * 262144 + (b1 - 0x80) * 4096 +
              (b2 - 0x80) * 64 + (b3 - 0x80)) % 0x110000) ::
            utf8DecodeReplace fuel rest
        else replChar :: utf8DecodeReplace fuel bs
      | _ => replChar :: utf8DecodeReplace fuel bs
    else
      replChar :: utf8DecodeReplace fuel bs

/-- Decode a byte list to a string, with replacement on invalid UTF-8. -/
def decodeReplace (bs : List Nat) : String :=
  String.mk (utf8DecodeReplace (bs.length + 1) bs)

/-- The bytes of an ASCII string, used to build concrete reply lines. -/
def asciiBytes (s : String) : List Nat :=
  s.data.map Char.toNat

/-! ## JSON values and a model of json.loads

The Python code parses reply lines with json.loads.  We model JSON values
with an inductive type; numbers record whether the source literal was a
float literal (fraction or exponent present), since Python distinguishes
int from float results.  the CPython non-standard acceptance of NaN and
Infinity literals is not modelled; no reply in this development uses them.
-/

inductive Json where
  | null : Json
  | bool (b : Bool) : Json
  | num (isFloat : Bool) (q : ℚ) : Json
  | str (s : String) : Json
  | arr (elems : List Json) : Json
  | obj (members : List (String × Json)) : Json

/-- JSON whitespace accepted between tokens by json.loads. -/
def isJsonWs (c : Char) : Bool :=
  c = ' ' || c = '\t' || c = '\n' || c = '\r'

/-- Skip JSON whitespace. -/
def skipWs : List Char → List Char
  | [] => []
  | c :: cs => if isJsonWs c then skipWs cs else c :: cs

/-- Decimal digit test. -/
def isDig (c : Char) : Bool := '0' ≤ c && c ≤ '9'

/-- Numeric value of a decimal digit character. -/
def digVal (c : Char) : Nat := c.toNat - '0'.toNat

/-- Split off a leading run of decimal digits. -/
def takeDigits : List Char → List Char × List Char
  | [] => ([], [])
  | c :: cs =>
    if isDig c then
      let (ds, rest) := takeDigits cs
      (c :: ds, rest)
    else ([], c :: cs)

/-- Natural number denoted by a digit run. -/
def digitsToNat (ds : List Char) : Nat :=
  ds.foldl (fun acc c => acc * 10 + digVal c) 0

/-- Value of a hexadecimal digit, if any (97 and 65 are the codes of the
lowercase and uppercase letter a). -/
def hexVal (c : Char) : Option Nat :=
  let n := c.toNat
  if isDig c then some (digVal c)
  else if 97 ≤ n && n ≤ 102 then some (n - 87)
  else if 65 ≤ n && n ≤ 70 then some (n - 55)
  else none

/-- Parse the body of a JSON string literal (the opening quote already
consumed), handling the standard escapes; raw control characters are
rejected as in json.loads strict mode. -/
def parseJStr : Nat → List Char → List Char → Option (String × List Char)
  | 0, _, _ => none
  | _ + 1, _, [] => none
  | fuel + 1, acc, c :: cs =>
    if c = '"' then some (String.mk acc.reverse, cs)
    else if c = '\\' then
      match cs with
      | [] => none
      | e :: cs2 =>
        if e = '"' then parseJStr fuel ('"' :: acc) cs2
        else if e = '\\' then parseJStr fuel ('\\' :: acc) cs2
        else if e = '/' then parseJStr fuel ('/' :: acc) cs2
        else if e = 'b' then parseJStr fuel ('\x08' :: acc) cs2
        else if e = 'f' then parseJStr fuel ('\x0c' :: acc) cs2
        else if e = 'n' then parseJStr fuel ('\n' :: acc) cs2
        else if e = 'r' then parseJStr fuel ('\r' :: acc) cs2
        else if e = 't' then parseJStr fuel ('\t' :: acc) cs2
        else if e = 'u' then
          match cs2 with
          | h1 :: h2 :: h3 :: h4 :: cs3 =>
            match hexVal h1, hexVal h2, hexVal h3, hexVal h4 with
            | some v1, some v2, some v3, some v4 =>
              let code := ((v1 * 16 + v2) * 16 + v3) * 16 + v4
              parseJStr fuel (Char.ofNat code :: acc) cs3
            | _, _, _, _ => none
          | _ => none
        else none
    else if c.toNat < 0x20 then none
    else parseJStr fuel (c :: acc) cs

/-- Parse a JSON number literal following the RFC grammar, recording
whether a fraction or exponent made it a float.  Leading zeros are
rejected as json.loads does. -/
def parseJNum (cs : List Char) : Option (Json × List Char) :=
  let (neg, cs1) :=
    match cs with
    | '-' :: rest => (true, rest)
    | _ => (false, cs)
  match takeDigits cs1 with
  | ([], _) => none
  | (d :: ds, cs2) =>
    if d = '0' && ds ≠ [] then none
    else
      let intPart : Nat := digitsToNat (d :: ds)
      let (fracDs, cs3, hasFrac) :=
        match cs2 with
        | '.' :: rest =>
          match takeDigits rest with
          | ([], _) => ([], cs2, false)
          | (fs, rest2) => (fs, rest2, true)
        | _ => ([], cs2, false)
      if cs3 ≠ [] && hasFrac = false && (match cs2 with
          | '.' :: _ => true
          | _ => false) then none
      else
        let (expVal, cs4, hasExp) :=
          match cs3 with
          | e :: rest =>
            if e = 'e' || e = 'E' then
              let (esign, rest1) :=
                match rest with
                | '+' :: r => ((1 : Int), r)
                | '-' :: r => ((-1 : Int), r)
                | _ => ((1 : Int), rest)
              match takeDigits rest1 with
              | ([], _) => ((0 : Int), cs3, none)
              | (es, rest2) => (esign * digitsToNat es, rest2, some ())
            else ((0 : Int), cs3, some ())
          | [] => ((0 : Int), cs3, some ())
        match hasExp with
        | none => none
        | some _ =>
          let isExp : Bool :=
            match cs3 with
            | e :: _ => e = 'e' || e = 'E'
            | [] => false
          let mantissa : Nat := intPart * 10 ^ fracDs.length + digitsToNat fracDs
          let sign : Int := if neg then -1 else 1
          let e10 : Int := expVal - fracDs.length
          let value : ℚ :=
            if 0 ≤ e10 then mkRat (sign * (mantissa * 10 ^ e10.toNat : Nat)) 1
            else mkRat (sign * mantissa) (10 ^ (-e10).toNat)
          some (Json.num (hasFrac || isExp) value, cs4)

/-- Test whether the input starts with the given keyword. -/
def startsList : List Char → List Char → Option (List Char)
  | [], cs => some cs
  | _, [] => none
  | k :: ks, c :: cs => if k = c then startsList ks cs else none

mutual

/-- Parse one JSON value (leading whitespace skipped), in the style of
json.loads; returns the value and the unconsumed remainder. -/
def parseJVal : Nat → List Char → Option (Json × List Char)
  | 0, _ => none
  | fuel + 1, cs =>
    match skipWs cs with
    | [] => none
    | c :: cs1 =>
      if c = '{' then
        match skipWs cs1 with
        | '}' :: cs2 => some (Json.obj [], cs2)
        | cs2 => parseJMembers fuel [] cs2
      else if c = '[' then
        match skipWs cs1 with
        | ']' :: cs2 => some (Json.arr [], cs2)
        | cs2 => parseJElems fuel [] cs2
      else if c = '"' then
        match parseJStr (cs1.length + 1) [] cs1 with
        | some (s, rest) => some (Json.str s, rest)
        | none => none
      else if c = 't' then
        match startsList ['r', 'u', 'e'] cs1 with
        | some rest => some (Json.bool true, rest)
        | none => none
      else if c = 'f' then
        match startsList ['a', 'l', 's', 'e'] cs1 with
        | some rest => some (Json.bool false, rest)
        | none => none
      else if c = 'n' then
        match startsList ['u', 'l', 'l'] cs1 with
        | some rest => some (Json.null, rest)
        | none => none
      else if c = '-' || isDig c then
        parseJNum (c :: cs1)
      else none

/-- Parse the members of a JSON object after the opening brace (and after
ruling out the empty object), accumulating in reverse. -/
def parseJMembers : Nat → List (String × Json) → List Char →
    Option (Json × List Char)
  | 0, _, _ => none
  | fuel + 1, acc, cs =>
    match skipWs cs with
    | '"' :: cs1 =>
      match parseJStr (cs1.length + 1) [] cs1 with
      | none => none
      | some (key, cs2) =>
        match skipWs cs2 with
        | ':' :: cs3 =>
          match parseJVal fuel cs3 with
          | none => none
          | some (v, cs4) =>
            match skipWs cs4 with
            | ',' :: cs5 => parseJMembers fuel ((key, v) :: acc) cs5
            | '}' :: cs5 => some (Json.obj ((key, v) :: acc).reverse, cs5)
            | _ => none
        | _ => none
    | _ => none

/-- Parse the elements of a JSON array after the opening bracket (and
after ruling out the empty array), accumulating in reverse. -/
def parseJElems : Nat → List Json → List Char → Option (Json × List Char)
  | 0, _, _ => none
  | fuel + 1, acc, cs =>
    match parseJVal fuel cs with
    | none => none
    | some (v, cs1) =>
      match skipWs cs1 with
      | ',' :: cs2 => parseJElems fuel (v :: acc) cs2
      | ']' :: cs2 => some (Json.arr (v :: acc).reverse, cs2)
      | _ => none

end

/-- Model of json.loads: parse exactly one JSON value, allowing only
whitespace around it; anything else fails (returns none, standing for the
raised ValueError that the Python code catches). -/
def jsonLoads (s : String) : Option Json :=
  match parseJVal (s.data.length + 1) s.data with
  | some (v, rest) => if skipWs rest = [] then some v else none
  | none => none

/-! ## JSON-substring fallback

The Python code falls back to re.search of a greedy brace pattern over the
line.  A leftmost greedy match of that pattern spans from the first open
brace that has some closing brace after it to the last closing brace of the
line; such an open brace exists exactly when the first open brace of the
line precedes the last closing brace. -/

/-- Index of the first occurrence of a character. -/
def firstIdxOf (c : Char) (cs : List Char) : Option Nat :=
  cs.findIdx? (fun x => x = c)

/-- Index of the last occurrence of a character. -/
def lastIdxOf (c : Char) (cs : List Char) : Option Nat :=
  match cs.reverse.findIdx? (fun x => x = c) with
  | some k => some (cs.length - 1 - k)
  | none => none

/-- Model of re.search of the greedy brace pattern over the line followed
by taking the whole match: the substring from the first open brace to the
last closing brace, when the former precedes the latter. -/
def extractBraces (line : String) : Option String :=
  let cs := line.data
  match firstIdxOf '{' cs, lastIdxOf '}' cs with
  | some i, some j =>
    if i < j then some (String.mk ((cs.drop i).take (j - i + 1))) else none
  | _, _ => none

/-- The decoding policy of send_cmd, exactly as in the source: try the full
line with json.loads; on failure look for a brace-delimited substring and
try that; on failure the decoded value is absent.  Never fails. -/
def tryParse (line : String) : Option Json :=
  match jsonLoads line with
  | some v => some v
  | none =>
    match extractBraces line with
    | some sub => jsonLoads sub
    | none => none

/-! ## The serial client (class SerialComm) -/

/-- Python exception values raised or swallowed by the embedded code. -/
inductive PyErr where
  | runtimeError (msg : String)
  | timeoutError (msg : String)
  | attributeError (msg : String)
  | serialError (msg : String)
deriving DecidableEq, Repr

/-- Message text of an exception, as Python str of the exception. -/
def pyErrStr : PyErr → String
  | .runtimeError m => m
  | .timeoutError m => m
  | .attributeError m => m
  | .serialError m => m

/-- The underlying pyserial handle: its open flag and its read timeout
attribute (the repository only ever stores numeric timeouts in it). -/
structure Handle where
  is_open : Bool
  timeout : ℚ
deriving DecidableEq, Repr

/-- State of a SerialComm instance: the optional handle stored in the ser
attribute.  The threading lock serializes entry to every method; each
embedded operation below models one complete locked call, so the lock
itself carries no further state. -/
structure SerialComm where
  ser : Option Handle
deriving DecidableEq, Repr

/-- A fresh SerialComm, before any successful open: ser is None. -/
def SerialComm.init : SerialComm := ⟨none⟩

/-- Channel operations that a send_cmd call performs on the handle, in
order. -/
inductive IOEvent where
  | resetInput
  | write (data : String)
  | readLine (timeoutInEffect : ℚ)
deriving DecidableEq, Repr

/-- Environment of one send_cmd call: how the handle behaves at each I/O
step.  resetRaises makes reset_input_buffer raise (the code swallows it);
writeError makes the write raise; readResult is what readline yields: the
bytes received before the timeout (possibly empty, possibly an unterminated
fragment) or a raised exception. -/
structure SendEnv where
  resetRaises : Bool
  writeError : Option PyErr
  readResult : Except PyErr (List Nat)

/-- Render a numeric timeout the way a Python f-string does at the
call sites of the repository (which all pass integers). -/
def ratStr (q : ℚ) : String :=
  if q.den == 1 then q.num.repr else q.num.repr ++ "/" ++ q.den.repr

/-- The TimeoutError message built by send_cmd. -/
def timeoutMsg (t : ℚ) (cmd : String) : String :=
  "No response within " ++ ratStr t ++ "s for command: " ++ cmd

/-- The RuntimeError raised by the NotConnected guard. -/
def notOpenErr : PyErr := .runtimeError "Serial port not open"

/-- Model of SerialComm.send_cmd.  Returns the Python result (the pair of
optional decoded value and raw line, or the raised exception), the state of
the instance after the call, and the ordered channel operations performed.
The readline result is modelled as the bytes it returns; pyserial returns
whatever arrived up to and including a newline, or everything received
before the timeout, or empty bytes when nothing arrived. -/
def send_cmd (comm : SerialComm) (cmd : String) (t : ℚ) (env : SendEnv) :
    Except PyErr (Option Json × String) × SerialComm × List IOEvent :=
  match comm.ser with
  | none => (.error notOpenErr, comm, [])
  | some h =>
    if h.is_open = false then (.error notOpenErr, comm, [])
    else
      -- reset_input_buffer, any failure swallowed
      let ev0 : List IOEvent := [.resetInput]
      let cmd_line := pyStrip cmd ++ "\n"
      match env.writeError with
      | some e => (.error e, comm, ev0)
      | none =>
        let ev1 := ev0 ++ [.write cmd_line]
        let old_timeout := h.timeout
        -- self.ser.timeout = timeout; readline under the overridden value;
        -- the finally block restores old_timeout on every path below
        let ev2 := ev1 ++ [.readLine t]
        let comm' : SerialComm := ⟨some { h with timeout := old_timeout }⟩
        match env.readResult with
        | .error e => (.error e, comm', ev2)
        | .ok raw =>
          if raw = [] then
            (.error (.timeoutError (timeoutMsg t cmd)), comm', ev2)
          else
            let line := pyStrip (decodeReplace raw)
            (.ok (tryParse line, line), comm', ev2)

/-- Model of SerialComm.close: if a handle exists its close is attempted
with any exception swallowed (closeRaises says whether it would raise), and
the ser attribute is set to None in every case. -/
def close (comm : SerialComm) (closeRaises : Bool) : SerialComm :=
  match comm.ser with
  | some _ => ⟨none⟩
  | none => comm

/-- Model of SerialComm.is_open. -/
def SerialComm.isOpenQ (comm : SerialComm) : Bool :=
  match comm.ser with
  | some h => h.is_open
  | none => false

/-! ## Python value rendering and dict access

The GUI renders response fields inside f-strings, which apply Python str;
str falls back to repr for containers.  Dict lookups are modelled on the
member list of a JSON object; a later duplicate key overwrites an earlier
one in a Python dict, so lookup returns the last match. -/

/-- Model of dict.get on the member list of a decoded JSON object: the
value of the last member with the given key, if any. -/
def lookupLast (kvs : List (String × Json)) (k : String) : Option Json :=
  match kvs with
  | [] => none
  | (k', v) :: rest =>
    match lookupLast rest k with
    | some r => some r
    | none => if k' = k then some v else none

/-- Least scale 10^k that clears the denominator, for rendering a rational
as a finite decimal; the repository only ever renders short decimals, which
CPython in turn prints exactly. -/
def decK (q : ℚ) : Option Nat :=
  (List.range 41).find? (fun k => (q.num * (10 : Int) ^ k) % (q.den : Int) == 0)

/-- Render a float value as CPython str does on short exact decimals:
integral values get a trailing .0, others print their decimal digits. -/
def pyFloatDigits (q : ℚ) : String :=
  match decK q with
  | none => "float(" ++ q.num.repr ++ "/" ++ q.den.repr ++ ")"
  | some 0 => q.num.repr ++ ".0"
  | some (k + 1) =>
    let scaled : Int := q.num * (10 : Int) ^ (k + 1) / (q.den : Int)
    let s := scaled.natAbs.repr
    let s := if s.length < k + 2 then
        String.mk (List.replicate (k + 2 - s.length) '0') ++ s
      else s
    let ip := s.take (s.length - (k + 1))
    let fp := s.drop (s.length - (k + 1))
    (if q.num < 0 then "-" else "") ++ ip ++ "." ++ fp

mutual

/-- Model of Python repr on decoded JSON values (string escapes inside
repr of strings are not reproduced; no claim depends on them). -/
def pyRepr : Json → String
  | .null => "None"
  | .bool true => "True"
  | .bool false => "False"
  | .num false q => q.num.repr
  | .num true q => pyFloatDigits q
  | .str s => "\x27" ++ s ++ "\x27"
  | .arr xs => "[" ++ pyReprList xs ++ "]"
  | .obj kvs => "\x7b" ++ pyReprMembers kvs ++ "\x7d"

/-- Comma-joined reprs of array elements. -/
def pyReprList : List Json → String
  | [] => ""
  | [x] => pyRepr x
  | x :: y :: xs => pyRepr x ++ ", " ++ pyReprList (y :: xs)

/-- Comma-joined reprs of object members. -/
def pyReprMembers : List (String × Json) → String
  | [] => ""
  | [(k, v)] => "\x27" ++ k ++ "\x27: " ++ pyRepr v
  | (k, v) :: m :: kvs => "\x27" ++ k ++ "\x27: " ++ pyRepr v ++ ", " ++ pyReprMembers (m :: kvs)

end

/-- Model of Python str on a decoded JSON value. -/
def pyStr (j : Json) : String :=
  match j with
  | .str s => s
  | other => pyRepr other

/-- Model of Python truthiness on decoded JSON values. -/
def pyTruthy (j : Json) : Bool :=
  match j with
  | .null => false
  | .bool b => b
  | .num _ q => q.num ≠ 0
  | .str s => s ≠ ""
  | .arr xs => !xs.isEmpty
  | .obj kvs => !kvs.isEmpty

/-- Truthiness of an optional lookup result (a missing key yields None,
which is falsy). -/
def pyTruthyOpt (o : Option Json) : Bool :=
  match o with
  | none => false
  | some v => pyTruthy v

/-- Render an optional field with a default for a missing key, as the
f-strings in _log_response do with dict.get defaults. -/
def strFieldD (o : Option Json) (dflt : String) : String :=
  match o with
  | some v => pyStr v
  | none => dflt

/-! ## The Event Sink (the Responses pane) -/

/-- One entry appended to the Responses pane.  plain models
_log_response_plain; summary models the summary-plus-pretty-JSON pair of
insertions of _log_response (the timestamp prefix, pure wall-clock text, is
not modelled); rawLine models its fallback insertion of the raw text. -/
inductive LogEntry where
  | plain (text : String)
  | summary (cmdF okF msgF : String) (parsed : Json)
  | rawLine (raw : String)

/-- Model of DAQGui._log_response: the summary rendering is chosen exactly
when the parsed value is truthy and a dict, i.e. a non-empty JSON object;
anything else (absent, non-dict, or empty dict) logs the raw text. -/
def logResponse (raw : String) (parsed : Option Json) : LogEntry :=
  match parsed with
  | some (Json.obj (kv :: kvs)) =>
    .summary (strFieldD (lookupLast (kv :: kvs) "cmd") "")
      (strFieldD (lookupLast (kv :: kvs) "ok") "None")
      (strFieldD (lookupLast (kv :: kvs) "msg") "")
      (Json.obj (kv :: kvs))
  | _ => .rawLine raw

/-! ## Python float, for the calibration weight -/

/-- The value of a CPython float, as the calibration code observes it:
a finite value, a signed infinity, or NaN.  The repository only feeds
float short decimal strings, which an IEEE double represents and reprints
exactly, so finite values are carried as exact rationals. -/
inductive PyFloat where
  | finite (q : ℚ)
  | inf (neg : Bool)
  | nan
deriving DecidableEq, Repr

/-- Exact value of a decimal mantissa scaled by a power of ten. -/
def decValue (neg : Bool) (mant : Nat) (e10 : Int) : ℚ :=
  let sign : Int := if neg then -1 else 1
  if 0 ≤ e10 then mkRat (sign * (mant * 10 ^ e10.toNat : Nat)) 1
  else mkRat (sign * mant) (10 ^ (-e10).toNat)

/-- Model of the float builtin on a string: optional sign, then inf,
infinity or nan (case-insensitive), or a decimal with optional fraction
and exponent; surrounding whitespace is stripped; anything else raises
ValueError, modelled as none.  The model covers the ASCII repertoire:
CPython additionally accepts any Unicode decimal digit and strips Unicode
whitespace, and also allows underscored digit groups since Python 3.6,
none of which are modelled here — every theorem below that relies on this
function failing to parse therefore restricts its input to ASCII strings
without underscores (the asciiFloatDomain guard). -/
def pyFloat (s : String) : Option PyFloat :=
  let cs := (pyStrip s).data.map Char.toLower
  let (neg, cs1) :=
    match cs with
    | '+' :: r => (false, r)
    | '-' :: r => (true, r)
    | _ => (false, cs)
  if cs1 = ['i', 'n', 'f'] || cs1 = ['i', 'n', 'f', 'i', 'n', 'i', 't', 'y'] then
    some (.inf neg)
  else if cs1 = ['n', 'a', 'n'] then some .nan
  else
    let (ids, cs2) := takeDigits cs1
    let (fds, cs3) :=
      match cs2 with
      | '.' :: r => takeDigits r
      | _ => ([], cs2)
    if ids = [] && fds = [] then none
    else
      let mant := digitsToNat ids * 10 ^ fds.length + digitsToNat fds
      match cs3 with
      | [] => some (.finite (decValue neg mant (-(fds.length : Int))))
      | 'e' :: r =>
        let (esign, r1) : Int × List Char :=
          match r with
          | '+' :: rr => (1, rr)
          | '-' :: rr => (-1, rr)
          | _ => (1, r)
        match takeDigits r1 with
        | ([], _) => none
        | (es, r2) =>
          if r2 = [] then
            some (.finite (decValue neg mant
              (esign * (digitsToNat es : Int) - (fds.length : Int))))
          else none
      | _ => none

/-- The domain on which pyFloat agrees with the CPython float builtin:
ASCII text without underscores.  Outside it (Unicode digits, Unicode
whitespace, underscored digit groups) CPython can parse strings the model
does not. -/
def asciiFloatDomain (s : String) : Bool :=
  s.data.all (fun c => c.toNat < 128 && c ≠ '_')

/-- The test weight_val less-or-equal 0, with IEEE comparison semantics:
a NaN compares false, so it passes the guard; negative infinity does not. -/
def pyLeZero : PyFloat → Bool
  | .finite q => q.num ≤ 0
  | .inf neg => neg
  | .nan => false

/-- Render a float the way the CALIBRATE f-string does (CPython str). -/
def pyFloatRepr : PyFloat → String
  | .finite q => pyFloatDigits q
  | .inf false => "inf"
  | .inf true => "-inf"
  | .nan => "nan"

/-! ## The guided calibration workflow (DAQGui.calibration_walkthrough) -/

/-- The module-level read timeout constant. -/
def READ_TIMEOUT : ℚ := 5

/-- The module-level extended command timeout constant. -/
def CMD_TIMEOUT : ℚ := 15

/-- The user-visible outcome of the walkthrough before any CALIBRATE
response arrives. -/
inductive CalNote where
  | warnNotConnected
  | cancelled
  | invalidWeight
  | proceeded (w : PyFloat)
deriving DecidableEq, Repr

/-- What the walkthrough hands to the async command runner: the commands
issued (with their timeouts, in order) and the note shown to the user. -/
structure CalStart where
  cmds : List (String × ℚ)
  note : CalNote
deriving DecidableEq, Repr

/-- Model of DAQGui.calibration_walkthrough up to the point where the
CALIBRATE command is handed to a background task.  Inputs: whether the
transport is open, the answer to the tare prompt, and the weight dialog
result (none models a cancelled dialog; the empty string is also falsy and
cancels).  float parse failures and non-positive values are rejected
before any CALIBRATE is issued. -/
def calibration_walkthrough (connected tareYes : Bool) (weightStr : Option String) :
    CalStart :=
  if connected = false then ⟨[], .warnNotConnected⟩
  else
    let pre : List (String × ℚ) := if tareYes then [("TARE", READ_TIMEOUT)] else []
    match weightStr with
    | none => ⟨pre, .cancelled⟩
    | some w =>
      if w = "" then ⟨pre, .cancelled⟩
      else
        match pyFloat w with
        | none => ⟨pre, .invalidWeight⟩
        | some v =>
          if pyLeZero v then ⟨pre, .invalidWeight⟩
          else ⟨pre ++ [("CALIBRATE " ++ pyFloatRepr v, CMD_TIMEOUT)], .proceeded v⟩

/-! ## The calibration completion handler and the async command worker -/

/-- The message box shown by the calibration callback cb. -/
inductive CalReport where
  | failedBox (text : String)
  | successBox (data : Option Json)
  | errorBox (msg : String) (resp : Json)

/-- Model of dict.get via attribute access on an arbitrary decoded value:
only a dict has a get attribute; anything else raises AttributeError. -/
def pyGet (j : Json) (k : String) : Except PyErr (Option Json) :=
  match j with
  | .obj kvs => .ok (lookupLast kvs k)
  | _ => .error (.attributeError "object has no attribute get")

/-- Model of the cb closure inside calibration_walkthrough.  On ok false it
shows the failure box; on ok true it reads resp.get fields, which raises
AttributeError when resp is None (the unstructured-response case) or not a
dict. -/
def calCb (ok : Bool) (resp : Option Json) (raw : String) : Except PyErr CalReport :=
  if ok = false then .ok (.failedBox ("Error: " ++ raw))
  else
    match resp with
    | none => .error (.attributeError "NoneType object has no attribute get")
    | some j =>
      match pyGet j "ok" with
      | .error e => .error e
      | .ok okField =>
        if pyTruthyOpt okField then
          match pyGet j "data" with
          | .error e => .error e
          | .ok dataField => .ok (.successBox dataField)
        else .ok (.errorBox (strFieldD (lookupLast
            (match j with | .obj kvs => kvs | _ => []) "msg") "None") j)

/-- Model of DAQGui._cmd_worker for a command with a completion callback:
the send outcome is given (the pair returned by send_cmd, or the exception
it raised); the worker logs the command echo, then either logs the
response and fires the callback with success, or logs the error and fires
the callback with failure.  An exception escaping the success callback is
caught by the same except clause, which logs it and fires the callback
again with failure.  Returns the sink entries and the callback report (an
error means an exception escaped the worker thread). -/
def cmd_worker (cmd : String) (out : Except PyErr (Option Json × String))
    (cb : Bool → Option Json → String → Except PyErr CalReport) :
    List LogEntry × Except PyErr (Option CalReport) :=
  let echo : LogEntry := .plain (">>> " ++ cmd)
  match out with
  | .ok (p, r) =>
    match cb true p r with
    | .ok rep => ([echo, logResponse r p], .ok (some rep))
    | .error e =>
      let err := pyErrStr e
      match cb false none err with
      | .ok rep =>
        ([echo, logResponse r p, .plain ("<<< ERROR: " ++ err),
          logResponse err none], .ok (some rep))
      | .error e2 =>
        ([echo, logResponse r p, .plain ("<<< ERROR: " ++ err),
          logResponse err none], .error e2)
  | .error e =>
    let err := pyErrStr e
    match cb false none err with
    | .ok rep =>
      ([echo, .plain ("<<< ERROR: " ++ err), logResponse err none], .ok (some rep))
    | .error e2 =>
      ([echo, .plain ("<<< ERROR: " ++ err), logResponse err none], .error e2)

/-! ## The full automated test (DAQGui._full_test_worker) -/

/-- Worker state while the full test runs: how many commands have been
sent so far, the commands issued (with timeouts, in order), and the sink
entries appended. -/
structure TW where
  k : Nat
  cmds : List (String × ℚ)
  events : List LogEntry

/-- Outcome environment for the full test: the result of the i-th
send_cmd call the worker makes (the returned pair, or the exception). -/
def TestEnv : Type := Nat → Except PyErr (Option Json × String)

/-- Issue one command: record it and consult the environment for its
outcome. -/
def twSend (env : TestEnv) (st : TW) (cmd : String) (tmo : ℚ) :
    TW × Except PyErr (Option Json × String) :=
  (⟨st.k + 1, st.cmds ++ [(cmd, tmo)], st.events⟩, env st.k)

/-- One step of the per-step try blocks of the first phase and of
LIST_FILES: log the response on success, log the stringified exception on
failure, and continue either way. -/
def twStepCaught (env : TestEnv) (st : TW) (cmd : String) (tmo : ℚ) : TW :=
  match twSend env st cmd tmo with
  | (st1, .ok (p, r)) => { st1 with events := st1.events ++ [logResponse r p] }
  | (st1, .error e) =>
    { st1 with events := st1.events ++ [logResponse (pyErrStr e) none] }

/-- One send inside the single try block of the recording phase: log the
response on success; on failure the exception escapes to the surrounding
handler. -/
def twSendLogged (env : TestEnv) (st : TW) (cmd : String) (tmo : ℚ) :
    TW × Option PyErr :=
  match twSend env st cmd tmo with
  | (st1, .ok (p, r)) => ({ st1 with events := st1.events ++ [logResponse r p] }, none)
  | (st1, .error e) => (st1, some e)

/-- The READ loop inside the recording phase, stopping at the first
escaping exception. -/
def twReadLoop (env : TestEnv) : Nat → TW → TW × Option PyErr
  | 0, st => (st, none)
  | n + 1, st =>
    match twSendLogged env st "READ" 3 with
    | (st1, some e) => (st1, some e)
    | (st1, none) => twReadLoop env n st1

/-- The opted-in recording phase: START, READ six times, STOP, all inside
one try block whose except clause logs the first escaping exception; the
remaining sends of the phase are skipped after a failure. -/
def twRecording (env : TestEnv) (st : TW) : TW :=
  let afterBlock : TW × Option PyErr :=
    match twSendLogged env st "START" 5 with
    | (st1, some e) => (st1, some e)
    | (st1, none) =>
      match twReadLoop env 6 st1 with
      | (st2, some e) => (st2, some e)
      | (st2, none) =>
        match twSendLogged env st2 "STOP" 5 with
        | (st3, some e) => (st3, some e)
        | (st3, none) => (st3, none)
  match afterBlock with
  | (st', none) => st'
  | (st', some e) => { st' with events := st'.events ++ [logResponse (pyErrStr e) none] }

/-- Model of DAQGui._full_test_worker: the fixed first phase with a try
block per step, the optional recording phase with a single try block (or
the skip note), then LIST_FILES with its own try block. -/
def fullTestWorker (saveTest : Bool) (env : TestEnv) : TW :=
  let st0 : TW := ⟨0, [], []⟩
  let st1 := twStepCaught env st0 "PING" 3
  let st2 := twStepCaught env st1 "STATUS" 3
  let st3 := twStepCaught env st2 "TEST_TEMP" 3
  let st4 := twStepCaught env st3 "TEST_PRESSURE" 3
  let st5 := twStepCaught env st4 "READ" 3
  let st6 := twStepCaught env st5 "READ" 3
  let st7 := twStepCaught env st6 "READ" 3
  let st8 := twStepCaught env st7 "READ" 3
  let st9 :=
    if saveTest then twRecording env st8
    else { st8 with events := st8.events ++
      [.plain "Skipping recording file test (user choice)"] }
  twStepCaught env st9 "LIST_FILES" 5

/-! ## Concrete fixtures used by the theorems below -/

/-- An open connection with the default read timeout. -/
def commOpen : SerialComm := ⟨some ⟨true, 5⟩⟩

/-- The noisy reply line of the decode-fallback property. -/
def noisyLine : String :=
  "noisy-prefix \x7b\"ok\":true,\"cmd\":\"PING\",\"msg\":\"pong\"\x7d trailing"

/-- Environment in which readline yields the noisy line. -/
def envNoisy : SendEnv := ⟨false, none, .ok (asciiBytes (noisyLine ++ "\n"))⟩

/-- Environment in which readline yields no bytes before the timeout. -/
def envEmptyRead : SendEnv := ⟨false, none, .ok []⟩

/-- Environment in which readline yields an unterminated fragment (the
timeout expired mid-line) and the buffer reset also failed. -/
def envFragment : SendEnv := ⟨true, none, .ok (asciiBytes "PARTIA")⟩

/-- Full-test environment in which every send succeeds with an
unstructured reply. -/
def envAllOk : TestEnv := fun _ => .ok (none, "ok")

/-- Full-test environment in which the ninth send (START, index 8) raises
and every other send succeeds. -/
def envStartFails : TestEnv := fun i =>
  if i = 8 then .error (.runtimeError "boom") else .ok (none, "ok")

/-- The command order the full test issues when every step succeeds and
the operator opted in. -/
def fullOrder : List String :=
  ["PING", "STATUS", "TEST_TEMP", "TEST_PRESSURE", "READ", "READ", "READ", "READ",
   "START", "READ", "READ", "READ", "READ", "READ", "READ", "STOP", "LIST_FILES"]

/-- The commands of the unconditional first phase. -/
def firstPhase : List String :=
  ["PING", "STATUS", "TEST_TEMP", "TEST_PRESSURE", "READ", "READ", "READ", "READ"]

/-- The sink entry a caught step appends for the outcome of the k-th
send. -/
def stepEvent (env : TestEnv) (k : Nat) : LogEntry :=
  match env k with
  | .ok (p, r) => logResponse r p
  | .error e => logResponse (pyErrStr e) none

/-- The commands (with timeouts) of the unconditional first phase. -/
def firstPhaseCmds : List (String × ℚ) :=
  [("PING", 3), ("STATUS", 3), ("TEST_TEMP", 3), ("TEST_PRESSURE", 3),
   ("READ", 3), ("READ", 3), ("READ", 3), ("READ", 3)]

/-- Whether a decoded value is a non-empty JSON object — the exact
condition under which _log_response picks the summary rendering. -/
def jIsNonemptyObj (j : Json) : Bool :=
  match j with
  | .obj (_ :: _) => true
  | _ => false

/-! ## Helper lemmas about the full-test worker -/

theorem twStepCaught_spec (env : TestEnv) (st : TW) (cmd : String) (tmo : ℚ) :
    twStepCaught env st cmd tmo =
      ⟨st.k + 1, st.cmds ++ [(cmd, tmo)], st.events ++ [stepEvent env st.k]⟩ := by
  unfold twStepCaught twSend stepEvent
  rcases henv : env st.k with e | ⟨p, r⟩ <;> simp [henv]

theorem twSendLogged_fst_cmds (env : TestEnv) (st : TW) (cmd : String) (tmo : ℚ) :
    (twSendLogged env st cmd tmo).1.cmds = st.cmds ++ [(cmd, tmo)] := by
  unfold twSendLogged twSend
  rcases henv : env st.k with e | ⟨p, r⟩ <;> simp [henv]

theorem twReadLoop_cmds (env : TestEnv) (n : Nat) (st : TW) :
    ∃ tail, (twReadLoop env n st).1.cmds = st.cmds ++ tail := by
  induction n generalizing st with
  | zero => exact ⟨[], by simp [twReadLoop]⟩
  | succ n ih =>
    unfold twReadLoop
    rcases hs : twSendLogged env st "READ" 3 with ⟨st1, e⟩
    have hc1 : st1.cmds = st.cmds ++ [("READ", (3 : ℚ))] := by
      have := twSendLogged_fst_cmds env st "READ" 3
      rw [hs] at this
      exact this
    rcases e with _ | e
    · rcases ih st1 with ⟨tail, htail⟩
      exact ⟨[("READ", (3 : ℚ))] ++ tail, by simp [htail, hc1]⟩
    · exact ⟨[("READ", (3 : ℚ))], by simp [hc1]⟩

theorem twRecording_cmds (env : TestEnv) (st : TW) :
    ∃ tail, (twRecording env st).cmds = st.cmds ++ tail := by
  unfold twRecording
  rcases hs : twSendLogged env st "START" 5 with ⟨st1, e1⟩
  have hc1 : st1.cmds = st.cmds ++ [("START", (5 : ℚ))] := by
    have := twSendLogged_fst_cmds env st "START" 5
    rw [hs] at this
    exact this
  rcases e1 with _ | e1
  · rcases hr : twReadLoop env 6 st1 with ⟨st2, e2⟩
    have hc2 : ∃ t2, st2.cmds = st1.cmds ++ t2 := by
      rcases twReadLoop_cmds env 6 st1 with ⟨t2, ht2⟩
      rw [hr] at ht2
      exact ⟨t2, ht2⟩
    rcases hc2 with ⟨t2, ht2⟩
    rcases e2 with _ | e2
    · rcases hst : twSendLogged env st2 "STOP" 5 with ⟨st3, e3⟩
      have hc3 : st3.cmds = st2.cmds ++ [("STOP", (5 : ℚ))] := by
        have := twSendLogged_fst_cmds env st2 "STOP" 5
        rw [hst] at this
        exact this
      rcases e3 with _ | e3 <;>
        exact ⟨[("START", (5 : ℚ))] ++ t2 ++ [("STOP", (5 : ℚ))], by
          simp [hr, hst, hc3, ht2, hc1]⟩
    · exact ⟨[("START", (5 : ℚ))] ++ t2, by simp [hr, ht2, hc1]⟩
  · exact ⟨[("START", (5 : ℚ))], by simp [hc1]⟩

/-! ## Claim theorems -/

/-- C2: for every command text and timeout, calling send when no
connection has been successfully opened, or after close, fails with the
"Serial port not open" RuntimeError, leaves the state unchanged, and
performs no operation on the channel (empty I/O trace, hence no write and
no read). -/
theorem C2_not_connected_guard :
    (∀ (comm : SerialComm) (cmd : String) (t : ℚ) (env : SendEnv),
       comm.isOpenQ = false →
       send_cmd comm cmd t env = (.error notOpenErr, comm, [])) ∧
    (∀ (comm : SerialComm) (b : Bool) (cmd : String) (t : ℚ) (env : SendEnv),
       send_cmd (close comm b) cmd t env = (.error notOpenErr, close comm b, [])) ∧
    (∀ (cmd : String) (t : ℚ) (env : SendEnv),
       send_cmd SerialComm.init cmd t env = (.error notOpenErr, SerialComm.init, [])) := by
  refine ⟨?_, ?_, ?_⟩
  · intro comm cmd t env hopen
    unfold send_cmd
    rcases hc : comm.ser with _ | h
    · rfl
    · have hfalse : h.is_open = false := by
        simpa [SerialComm.isOpenQ, hc] using hopen
      simp [hfalse]
  · intro comm b cmd t env
    have hclosed : close comm b = ⟨none⟩ := by
      rcases comm with ⟨ser⟩
      rcases ser with _ | h <;> simp [close]
    rw [hclosed]
    rfl
  · intro cmd t env
    rfl

/-- C2 witness: a fresh client is closed, and a concrete send on it fails
with the guard error and an empty I/O trace. -/
theorem C2_not_connected_guard_witness :
    SerialComm.init.isOpenQ = false ∧
    send_cmd SerialComm.init "PING" 5 envEmptyRead =
      (.error notOpenErr, SerialComm.init, []) :=
  ⟨rfl, C2_not_connected_guard.1 SerialComm.init "PING" 5 envEmptyRead rfl⟩

/-- C4: on an open connection, when readline returns no bytes before the
per-call timeout, send fails with a TimeoutError whose message carries the
timeout bound and the original command text; no result pair is
returned. -/
theorem C4_timeout_carries_cmd :
    ∀ (h : Handle) (cmd : String) (t : ℚ) (env : SendEnv),
      h.is_open = true → env.writeError = none → env.readResult = .ok [] →
      (send_cmd ⟨some h⟩ cmd t env).1 =
        .error (.timeoutError (timeoutMsg t cmd)) := by
  intro h cmd t env hopen hw hr
  unfold send_cmd
  simp [hopen, hw, hr]

/-- C4 witness: a concrete empty read yields exactly the timeout error
with the rendered bound and command text. -/
theorem C4_timeout_carries_cmd_witness :
    (⟨true, 5⟩ : Handle).is_open = true ∧
    envEmptyRead.readResult = .ok [] ∧
    timeoutMsg 5 "PING" = "No response within 5s for command: PING" ∧
    (send_cmd ⟨some ⟨true, 5⟩⟩ "PING" 5 envEmptyRead).1 =
      .error (.timeoutError (timeoutMsg 5 "PING")) :=
  ⟨rfl, rfl, rfl,
   C4_timeout_carries_cmd ⟨true, 5⟩ "PING" 5 envEmptyRead rfl rfl rfl⟩

/-- C5: for every send, the read timeout of the handle after the call equals
its value before the call, on every exit path (guard failure, write
failure, read failure, timeout, success); and any readline the call
performs runs with the per-call timeout in effect. -/
theorem C5_timeout_override_restored :
    ∀ (comm : SerialComm) (cmd : String) (t : ℚ) (env : SendEnv),
      (send_cmd comm cmd t env).2.1.ser.map Handle.timeout =
        comm.ser.map Handle.timeout ∧
      (∀ q, IOEvent.readLine q ∈ (send_cmd comm cmd t env).2.2 → q = t) := by
  intro comm cmd t env
  unfold send_cmd
  rcases hc : comm.ser with _ | h
  · simp [hc]
  · by_cases ho : h.is_open = false
    · simp [hc, ho]
    · rcases hw : env.writeError with _ | e
      · rcases hr : env.readResult with e | raw
        · simp [hc, ho, hw, hr]
        · by_cases hraw : raw = [] <;> simp [hc, ho, hw, hr, hraw]
      · simp [hc, ho, hw]

/-- C5 witness: on a concrete successful send the restored timeout equals
the prior one and the concrete read event carried the per-call value. -/
theorem C5_timeout_override_restored_witness :
    (send_cmd commOpen "READ" 3 envFragment).2.1.ser.map Handle.timeout =
      commOpen.ser.map Handle.timeout ∧
    IOEvent.readLine 3 ∈ (send_cmd commOpen "READ" 3 envFragment).2.2 ∧
    (3 : ℚ) = 3 :=
  ⟨(C5_timeout_override_restored commOpen "READ" 3 envFragment).1,
   by decide,
   (C5_timeout_override_restored commOpen "READ" 3 envFragment).2 3 (by decide)⟩

/-- C6: close is idempotent and total: in every state it leaves the
client closed (ser is None) without raising — a failing handle close is
swallowed — so is_open reports false afterward, and closing again changes
nothing. -/
theorem C6_close_idempotent :
    ∀ (comm : SerialComm) (b : Bool),
      close comm b = ⟨none⟩ ∧
      (close comm b).isOpenQ = false ∧
      ∀ b', close (close comm b) b' = close comm b := by
  intro comm b
  rcases comm with ⟨ser⟩
  rcases ser with _ | h <;> simp [close, SerialComm.isOpenQ]

/-- C1: for every reply line, send applies the decoding policy in order —
full-line json.loads first, then the brace-delimited substring, then
decoded-absent — and always returns the raw trimmed line without raising
on decode failure; on the concrete noisy line it returns the decoded
mapping together with the full original line. -/
theorem C1_decode_policy :
    (∀ (h : Handle) (cmd : String) (t : ℚ) (env : SendEnv) (raw : List Nat),
       h.is_open = true → env.writeError = none → env.readResult = .ok raw →
       raw ≠ [] →
       (send_cmd ⟨some h⟩ cmd t env).1 =
         .ok (tryParse (pyStrip (decodeReplace raw)),
              pyStrip (decodeReplace raw))) ∧
    (∀ line v, jsonLoads line = some v → tryParse line = some v) ∧
    (∀ line sub, jsonLoads line = none → extractBraces line = some sub →
       tryParse line = jsonLoads sub) ∧
    (∀ line, jsonLoads line = none → extractBraces line = none →
       tryParse line = none) ∧
    (send_cmd commOpen "PING" 5 envNoisy).1 =
      .ok (some (Json.obj [("ok", Json.bool true), ("cmd", Json.str "PING"),
        ("msg", Json.str "pong")]), noisyLine) := by
  refine ⟨?_, ?_, ?_, ?_, ?_⟩
  · intro h cmd t env raw hopen hw hr hne
    unfold send_cmd
    simp [hopen, hw, hr, hne]
  · intro line v hv
    unfold tryParse
    rw [hv]
  · intro line sub h0 hsub
    unfold tryParse
    rw [h0, hsub]
  · intro line h0 hn
    unfold tryParse
    rw [h0, hn]
  · rfl

/-- C1 witness: the policy theorem applied to the concrete noisy reply. -/
theorem C1_decode_policy_witness :
    asciiBytes (noisyLine ++ "\n") ≠ [] ∧
    (send_cmd commOpen "PING" 5 envNoisy).1 =
      .ok (tryParse (pyStrip (decodeReplace (asciiBytes (noisyLine ++ "\n")))),
           pyStrip (decodeReplace (asciiBytes (noisyLine ++ "\n")))) :=
  ⟨by decide,
   C1_decode_policy.1 ⟨true, 5⟩ "PING" 5 envNoisy
     (asciiBytes (noisyLine ++ "\n")) rfl rfl rfl (by decide)⟩

/-- C10: on an open connection with a successful read, the Timeout failure
occurs exactly when the read returned zero bytes; any non-empty bytes —
including an unterminated fragment — are treated as the reply, returned
trimmed and replacement-decoded. -/
theorem C10_timeout_iff_empty_read :
    ∀ (h : Handle) (cmd : String) (t : ℚ) (env : SendEnv) (raw : List Nat),
      h.is_open = true → env.writeError = none → env.readResult = .ok raw →
      (((send_cmd ⟨some h⟩ cmd t env).1 =
          .error (.timeoutError (timeoutMsg t cmd))) ↔ raw = []) ∧
      (raw ≠ [] → (send_cmd ⟨some h⟩ cmd t env).1 =
          .ok (tryParse (pyStrip (decodeReplace raw)),
               pyStrip (decodeReplace raw))) := by
  intro h cmd t env raw hopen hw hr
  have hok : raw ≠ [] → (send_cmd ⟨some h⟩ cmd t env).1 =
      .ok (tryParse (pyStrip (decodeReplace raw)),
           pyStrip (decodeReplace raw)) := by
    intro hne
    unfold send_cmd
    simp [hopen, hw, hr, hne]
  refine ⟨⟨?_, ?_⟩, hok⟩
  · intro heq
    by_contra hne
    rw [hok hne] at heq
    exact Except.noConfusion heq
  · intro he
    subst he
    unfold send_cmd
    simp [hopen, hw, hr]

/-- C10 witness: a concrete unterminated fragment is returned as the raw
reply with no decoded value, and is not a timeout. -/
theorem C10_timeout_iff_empty_read_witness :
    asciiBytes "PARTIA" ≠ [] ∧
    (send_cmd commOpen "READ" 3 envFragment).1 = .ok (none, "PARTIA") ∧
    (send_cmd commOpen "READ" 3 envFragment).1 ≠
      .error (.timeoutError (timeoutMsg 3 "READ")) := by
  have h := C10_timeout_iff_empty_read ⟨true, 5⟩ "READ" 3 envFragment
    (asciiBytes "PARTIA") rfl rfl rfl
  refine ⟨by decide, (h.2 (by decide)).trans rfl, ?_⟩
  intro hcontra
  exact absurd (h.1.mp hcontra) (by decide)

/-- C3 counterexample: with the operator opted in and START raising while
every other send succeeds, the full test does not proceed to the remaining
recording-phase steps: the six READs and STOP are never issued (the claim
required the full order with one entry per step regardless of failures);
the single try block logs one error entry for the whole phase. -/
theorem C3_full_test_counterexample :
    ((fullTestWorker true envStartFails).cmds.map Prod.fst) =
      ["PING", "STATUS", "TEST_TEMP", "TEST_PRESSURE", "READ", "READ", "READ",
       "READ", "START", "LIST_FILES"] ∧
    "STOP" ∉ ((fullTestWorker true envStartFails).cmds.map Prod.fst) ∧
    ((fullTestWorker true envStartFails).cmds.map Prod.fst) ≠ fullOrder ∧
    (fullTestWorker true envStartFails).events.length = 10 :=
  ⟨by decide, by decide, by decide, rfl⟩

/-- C3 amended: when every send succeeds, the opted-in full test issues
exactly PING, STATUS, TEST_TEMP, TEST_PRESSURE, READ four times, START,
READ six times, STOP, LIST_FILES with one Event Sink entry per step; the
eight first-phase steps and the final LIST_FILES are issued with one entry
each regardless of any failures (shown for the non-opted run in full, and
for every run by the 8-command prefix and the LIST_FILES last command);
but a failure inside the opted-in recording phase skips the remainder of
that phase, as the counterexample shows. -/
theorem C3_full_test_amended :
    (∀ f : Nat → Option Json × String,
       ((fullTestWorker true (fun i => .ok (f i))).cmds.map Prod.fst = fullOrder) ∧
       (fullTestWorker true (fun i => .ok (f i))).events.length = 17) ∧
    (∀ env : TestEnv,
       (fullTestWorker false env).cmds = firstPhaseCmds ++ [("LIST_FILES", 5)] ∧
       (fullTestWorker false env).events.length = 10) ∧
    (∀ (saveTest : Bool) (env : TestEnv),
       ((fullTestWorker saveTest env).cmds.map Prod.fst).take 8 = firstPhase ∧
       ((fullTestWorker saveTest env).cmds.map Prod.fst).getLast? =
         some "LIST_FILES") := by
  refine ⟨?_, ?_, ?_⟩
  · intro f
    constructor
    · simp [fullTestWorker, twStepCaught, twSend, twRecording, twSendLogged,
        twReadLoop, fullOrder]
    · simp [fullTestWorker, twStepCaught, twSend, twRecording, twSendLogged,
        twReadLoop]
  · intro env
    simp [fullTestWorker, twStepCaught_spec, firstPhaseCmds]
  · intro saveTest env
    have hcmds : ∃ tail, (fullTestWorker saveTest env).cmds =
        firstPhaseCmds ++ tail ++ [("LIST_FILES", 5)] := by
      cases saveTest with
      | false =>
        refine ⟨[], ?_⟩
        simp [fullTestWorker, twStepCaught_spec, firstPhaseCmds]
      | true =>
        unfold fullTestWorker
        simp only [twStepCaught_spec, if_true]
        rcases twRecording_cmds env
            ⟨8, firstPhaseCmds, [stepEvent env 0, stepEvent env 1, stepEvent env 2,
              stepEvent env 3, stepEvent env 4, stepEvent env 5, stepEvent env 6,
              stepEvent env 7]⟩ with ⟨tail, htail⟩
        refine ⟨tail, ?_⟩
        simp [twStepCaught_spec, firstPhaseCmds] at htail ⊢
        simp [htail]
    rcases hcmds with ⟨tail, htail⟩
    constructor
    · rw [htail]
      have : (firstPhaseCmds ++ tail ++ [("LIST_FILES", (5 : ℚ))]).map Prod.fst =
          firstPhase ++ (tail.map Prod.fst ++ ["LIST_FILES"]) := by
        simp [firstPhaseCmds, firstPhase]
      rw [this]
      have hlen : firstPhase.length = 8 := by decide
      rw [← hlen, List.take_left]
    · rw [htail]
      simp

/-- C7 counterexample: the weight input nan falsifies the general clause
that every non-positive or non-numeric weight is rejected before sending:
the float builtin parses it, NaN compares false against zero so the
less-or-equal guard passes, and the workflow sends CALIBRATE nan — even
though NaN is not a positive number. -/
theorem C7_calibration_validation_counterexample :
    pyFloat "nan" = some .nan ∧
    pyLeZero .nan = false ∧
    calibration_walkthrough true false (some "nan") =
      ⟨[("CALIBRATE nan", 15)], .proceeded .nan⟩ :=
  ⟨rfl, rfl, by decide⟩

/-- C7 amended: the guided calibration rejects the weights 0, -5, abc
with a user-visible error and treats the empty input as cancellation, in
every case before any CALIBRATE command is issued; 500.0 is accepted and
produces exactly the single command CALIBRATE 500.0.  In general a weight
string (from the ASCII, underscore-free domain on which the float model
is exact) that fails to parse, or whose parsed value compares
less-or-equal zero — which every non-positive real does, but NaN does
not — is rejected before sending and (when connected and non-empty)
reported as invalid; the input nan parses, escapes the comparison guard,
and is accepted, sending CALIBRATE nan. -/
theorem C7_calibration_validation :
    (calibration_walkthrough true false (some "0") = ⟨[], .invalidWeight⟩) ∧
    (calibration_walkthrough true false (some "-5") = ⟨[], .invalidWeight⟩) ∧
    (calibration_walkthrough true false (some "abc") = ⟨[], .invalidWeight⟩) ∧
    (calibration_walkthrough true false (some "") = ⟨[], .cancelled⟩) ∧
    (calibration_walkthrough true false (some "500.0") =
      ⟨[("CALIBRATE 500.0", 15)], .proceeded (.finite 500)⟩) ∧
    (∀ (conn tareYes : Bool) (ws : Option String),
       (ws = none ∨ ∃ s, ws = some s ∧ (s = "" ∨
         (asciiFloatDomain s = true ∧ pyFloat s = none) ∨
         ∃ v, pyFloat s = some v ∧ pyLeZero v = true)) →
       ((calibration_walkthrough conn tareYes ws).cmds.filter
         (fun p => p.1.startsWith "CALIBRATE")) = []) ∧
    (∀ (tareYes : Bool) (s : String), s ≠ "" →
       ((asciiFloatDomain s = true ∧ pyFloat s = none) ∨
         ∃ v, pyFloat s = some v ∧ pyLeZero v = true) →
       (calibration_walkthrough true tareYes (some s)).note = .invalidWeight) ∧
    (∀ tareYes : Bool, ∃ pre,
       calibration_walkthrough true tareYes (some "nan") =
         ⟨pre ++ [("CALIBRATE nan", 15)], .proceeded .nan⟩) := by
  refine ⟨by decide, by decide, by decide, by decide, by decide, ?_, ?_, ?_⟩
  · intro conn tareYes ws h
    rcases h with h | ⟨s, hs, h2⟩
    · subst h
      cases conn <;> cases tareYes <;> decide
    · subst hs
      cases conn with
      | false => simp [calibration_walkthrough]
      | true =>
        by_cases hse : s = ""
        · subst hse
          cases tareYes <;> decide
        · rcases h2 with he | ⟨-, hn⟩ | ⟨v, hv, hle⟩
          · exact absurd he hse
          · cases tareYes <;>
              simp [calibration_walkthrough, hse, hn, List.filter] <;> decide
          · cases tareYes <;>
              simp [calibration_walkthrough, hse, hv, hle, List.filter] <;> decide
  · intro tareYes s hse h2
    rcases h2 with ⟨-, hn⟩ | ⟨v, hv, hle⟩
    · cases tareYes <;> simp [calibration_walkthrough, hse, hn]
    · cases tareYes <;> simp [calibration_walkthrough, hse, hv, hle]
  · intro tareYes
    cases tareYes with
    | false => exact ⟨[], by decide⟩
    | true => exact ⟨[("TARE", READ_TIMEOUT)], by decide⟩

/-- C7 witness: the general rejection conjuncts applied to the concrete
non-numeric weight with the tare option taken. -/
theorem C7_calibration_validation_witness :
    asciiFloatDomain "abc" = true ∧
    pyFloat "abc" = none ∧
    ((calibration_walkthrough true true (some "abc")).cmds.filter
      (fun p => p.1.startsWith "CALIBRATE")) = [] ∧
    (calibration_walkthrough true true (some "abc")).note = .invalidWeight :=
  ⟨by decide, rfl,
   C7_calibration_validation.2.2.2.2.2.1 true true (some "abc")
     (Or.inr ⟨"abc", rfl, Or.inr (Or.inl ⟨by decide, rfl⟩)⟩),
   C7_calibration_validation.2.2.2.2.2.2.1 true "abc" (by decide)
     (Or.inl ⟨by decide, rfl⟩)⟩

/-- C8 counterexample: a decoded value can be present while the entry is
still the raw-text rendering — a decoded JSON array (as json.loads
returns for a bracketed reply) is present but is not a dict, so the raw
line is logged; presence alone is therefore not the condition selecting
the summary rendering. -/
theorem C8_rendering_counterexample :
    (some (Json.arr [Json.num false 1, Json.num false 2])).isSome = true ∧
    logResponse "[1, 2]" (some (Json.arr [Json.num false 1, Json.num false 2])) =
      .rawLine "[1, 2]" :=
  ⟨rfl, rfl⟩

/-- C8 amended: the summary rendering (cmd, ok, msg fields read from the
decoded mapping with the defaults of the source) is chosen exactly when the
decoded value is present and is a non-empty mapping; when it is absent,
an empty mapping, or not a mapping, the raw text is logged verbatim. -/
theorem C8_rendering_amended :
    (∀ raw kv kvs,
       logResponse raw (some (Json.obj (kv :: kvs))) =
         .summary (strFieldD (lookupLast (kv :: kvs) "cmd") "")
           (strFieldD (lookupLast (kv :: kvs) "ok") "None")
           (strFieldD (lookupLast (kv :: kvs) "msg") "")
           (Json.obj (kv :: kvs))) ∧
    (∀ raw, logResponse raw none = .rawLine raw) ∧
    (∀ raw, logResponse raw (some (Json.obj [])) = .rawLine raw) ∧
    (∀ raw j, jIsNonemptyObj j = false →
       logResponse raw (some j) = .rawLine raw) := by
  refine ⟨fun raw kv kvs => rfl, fun raw => rfl, fun raw => rfl, ?_⟩
  intro raw j hj
  cases j with
  | obj kvs =>
    cases kvs with
    | nil => rfl
    | cons kv rest => simp [jIsNonemptyObj] at hj
  | null => rfl
  | bool b => rfl
  | num f q => rfl
  | str s => rfl
  | arr xs => rfl

/-- C8 witness: the amended branch condition applied to a concrete
present-but-non-mapping decoded value. -/
theorem C8_rendering_amended_witness :
    jIsNonemptyObj (Json.str "DEVICE BOOTING") = false ∧
    logResponse "DEVICE BOOTING" (some (Json.str "DEVICE BOOTING")) =
      .rawLine "DEVICE BOOTING" :=
  ⟨rfl, C8_rendering_amended.2.2.2 "DEVICE BOOTING"
    (Json.str "DEVICE BOOTING") rfl⟩

/-- C9 counterexample: when the send succeeds but the decoded value is
absent (an unstructured reply), the calibration completion handler does
not terminate cleanly: reading ok off None raises AttributeError. -/
theorem C9_callback_counterexample :
    calCb true none "DEVICE BOOTING" =
      .error (.attributeError "NoneType object has no attribute get") :=
  rfl

/-- C9 amended: the handler reports a failure box on every transport
failure and an outcome box on every decoded mapping (nested data on
truthy ok, the error message otherwise); on a successful send with the
decoded value absent it instead raises AttributeError, which the except clause of the command
worker catches, logs, and converts into a second callback
invocation with failure, so the operator still sees a Calibration failed
report and no exception escapes the worker. -/
theorem C9_callback_amended :
    (∀ resp raw, calCb false resp raw = .ok (.failedBox ("Error: " ++ raw))) ∧
    (∀ kvs raw, pyTruthyOpt (lookupLast kvs "ok") = true →
       calCb true (some (.obj kvs)) raw =
         .ok (.successBox (lookupLast kvs "data"))) ∧
    (∀ kvs raw, pyTruthyOpt (lookupLast kvs "ok") = false →
       calCb true (some (.obj kvs)) raw =
         .ok (.errorBox (strFieldD (lookupLast kvs "msg") "None") (.obj kvs))) ∧
    (∀ raw, calCb true none raw =
       .error (.attributeError "NoneType object has no attribute get")) ∧
    (∀ cmd raw, (cmd_worker cmd (.ok (none, raw)) calCb).2 =
       .ok (some (.failedBox "Error: NoneType object has no attribute get"))) := by
  refine ⟨fun resp raw => rfl, ?_, ?_, fun raw => rfl, fun cmd raw => rfl⟩
  · intro kvs raw ht
    simp [calCb, pyGet, ht]
  · intro kvs raw ht
    simp [calCb, pyGet, ht]

/-- C9 witness: the truthy-ok conjunct applied to a concrete decoded
mapping reports its nested data. -/
theorem C9_callback_amended_witness :
    pyTruthyOpt (lookupLast [("ok", Json.bool true), ("data", Json.str "cal")] "ok") =
      true ∧
    calCb true (some (.obj [("ok", Json.bool true), ("data", Json.str "cal")])) "x" =
      .ok (.successBox (some (Json.str "cal"))) :=
  ⟨rfl,
   (C9_callback_amended.2.1 [("ok", Json.bool true), ("data", Json.str "cal")]
     "x" rfl).trans rfl⟩

end MiniDAQ
